import Mathlib

/-
Verification of the property-routing and merge engine of
src/lib/spring_config.py (spring-config-injection).

The shallow embedding below translates the functions of the source file
into Lean definitions:

  * `reMatch` models Python `re.match(pattern, key)` for the pattern
    language actually used by the program: concatenations of character
    classes, literals, `.`/`*`/`+`, optionally ending in `$`
    (`Pattern.anchored`).  Matching is via Brzozowski derivatives;
    `re.match` semantics are prefix-anchored at the start of the string,
    and a trailing `$` matches at the end of the string or just before a
    final newline.
  * `routeTarget` / `routeKey` / `routeSource` / `routeSources` model the
    routing loop of `save_config_properties` (lines 175-190): each
    key/value of each property source, iterated in reversed source order,
    is inserted into the bucket of every target whose filter matches.
  * `writeTarget` / `writeTargets` model the output loop of
    `save_config_properties` (lines 192-211); `write_property_file_text`
    and `write_property_file_bin` model `write_property_file` on a text
    stream (sys.stdout / sys.stderr) and on a binary-mode file
    respectively.  Writing a `str` to a binary-mode file raises
    `TypeError` in Python 3, which the binary variant makes explicit;
    printing a `bytes` object to a text stream writes its repr, modelled
    by `pyBytesRepr`.
  * `get_application_info`, `find_spring_config_service`,
    `get_access_token` and `runMain` model the surrounding control flow;
    network transport results (token endpoint, config GET) are parameters
    of type `Except PyErr _`, and the run is modelled at the default log
    level (`log_level = 1`), where the `int(log_level) > 1` branches are
    dead.  The final `VCAP_CONFIG` re-emission (lines 213-214) is outside
    the modelled observables.

Keys and values are Lean `String`s; Python dicts (insertion-ordered, keys
unique) are association lists, with `dictInsert` performing the
insertion-order-preserving update of `d[k] = v` and `dictGet?` the lookup.
-/

/-- Regular expressions, covering the pattern fragment used by the
program: `[0-9A-Z_]+$`, `([a-z0-9]+\.)+[a-z0-9]+$`, `[a-z0-9]+$`, `.*`. -/
inductive Re where
  | emp : Re
  | eps : Re
  | chr : Char → Re
  | cls : List Char → Re
  | any : Re
  | seq : Re → Re → Re
  | alt : Re → Re → Re
  | star : Re → Re
deriving DecidableEq

/-- Does the regular expression accept the empty string? -/
def Re.nullable : Re → Bool
  | .emp => false
  | .eps => true
  | .chr _ => false
  | .cls _ => false
  | .any => false
  | .seq a b => a.nullable && b.nullable
  | .alt a b => a.nullable || b.nullable
  | .star _ => true

/-- Brzozowski derivative of a regular expression by one character.
`Re.any` models `.`, which does not match a newline. -/
def Re.deriv : Re → Char → Re
  | .emp, _ => .emp
  | .eps, _ => .emp
  | .chr c, x => if c = x then .eps else .emp
  | .cls l, x => if l.contains x then .eps else .emp
  | .any, x => if x = Char.ofNat 10 then .emp else .eps
  | .seq a b, x =>
    if a.nullable then .alt (.seq (a.deriv x) b) (b.deriv x) else .seq (a.deriv x) b
  | .alt a b, x => .alt (a.deriv x) (b.deriv x)
  | .star a, x => .seq (a.deriv x) (.star a)

/-- `r+` as used in the source patterns. -/
def Re.plus (r : Re) : Re := .seq r (.star r)

/-- Does the regular expression match the whole character list? -/
def fullMatch (r : Re) (s : List Char) : Bool := (s.foldl Re.deriv r).nullable

/-- Does the regular expression match some leading segment of the list?
This is the `re.match` semantics for a pattern with no `$`: the match is
anchored at position 0 but need not reach the end. -/
def reMatchStart : Re → List Char → Bool
  | r, [] => r.nullable
  | r, c :: cs => r.nullable || reMatchStart (r.deriv c) cs

/-- A source pattern: a regular expression body, with `anchored = true`
when the pattern ends in `$`. -/
structure Pattern where
  re : Re
  anchored : Bool
deriving DecidableEq

/-- Python `re.match(pattern, s) is not None`.  For a pattern `body$`,
`$` matches at the end of the string or just before a newline that ends
the string; for a pattern without `$` the match only needs to succeed at
position 0. -/
def reMatch (p : Pattern) (s : String) : Bool :=
  if p.anchored then
    fullMatch p.re s.data ||
      (match s.data.getLast? with
       | some c => (c = Char.ofNat 10 : Bool) && fullMatch p.re s.data.dropLast
       | none => false)
  else reMatchStart p.re s.data

/-- The class `[0-9A-Z_]`. -/
def upperClass : List Char := "0123456789ABCDEFGHIJKLMNOPQRSTUVWXYZ_".data

/-- The class `[a-z0-9]`. -/
def lowerClass : List Char := "abcdefghijklmnopqrstuvwxyz0123456789".data

/-- Filter of the first default target: `[0-9A-Z_]+$`. -/
def envRe : Re := Re.plus (.cls upperClass)

/-- Filter of the second default target: `([a-z0-9]+\.)+[a-z0-9]+$`. -/
def dottedRe : Re :=
  Re.seq (Re.plus (Re.seq (Re.plus (.cls lowerClass)) (.chr '.'))) (Re.plus (.cls lowerClass))

/-- Filter of the third default target: `[a-z0-9]+$`. -/
def simpleRe : Re := Re.plus (.cls lowerClass)

/-- The pattern substituted for a missing `filter` entry:
`target.get('filter', '.*')` (line 179). -/
def defaultFilter : Pattern := { re := Re.star Re.any, anchored := false }

/-- One entry of the `targets` list of `save_config_properties`: a dict
with optional `filter`, `target` and `format` entries and an accumulating
`properties` bucket (missing bucket modelled as the empty list, matching
`target.get('properties', {})`). -/
structure Target where
  filter : Option Pattern
  target : Option String
  format : Option String
  properties : List (String × String)
deriving DecidableEq

/-- A default target used only to give `List.getD` a value at
out-of-range indices in theorem statements. -/
def dummyTarget : Target := { filter := none, target := none, format := none, properties := [] }

/-- `default_targets` of `save_config_properties` (lines 148-163). -/
def default_targets : List Target :=
  [ { filter := some { re := envRe, anchored := true },
      target := some "env", format := none, properties := [] },
    { filter := some { re := dottedRe, anchored := true },
      target := some "file:config-server.properties",
      format := some "properties", properties := [] },
    { filter := some { re := simpleRe, anchored := true },
      target := some "file:config-server.yml",
      format := some "yml", properties := [] } ]

/-- Python dict update `d[k] = v`: replace the value at `k` in place if
present, keeping its position, else append at the end. -/
def dictInsert : List (String × String) → String → String → List (String × String)
  | [], k, v => [(k, v)]
  | p :: ps, k, v => if p.1 = k then (k, v) :: ps else p :: dictInsert ps k v

/-- Python dict lookup `d.get(k)`. -/
def dictGet? : List (String × String) → String → Option String
  | [], _ => none
  | p :: ps, k => if p.1 = k then some p.2 else dictGet? ps k

/-- The filter actually matched against a key:
`target.get('filter', '.*')` (line 179). -/
def targetFilter (t : Target) : Pattern := t.filter.getD defaultFilter

/-- Body of the inner loop of `save_config_properties` (lines 178-187)
for one target: if the filter matches the key, default the `target` entry
to `stderr` and insert the key/value into the bucket; otherwise leave the
target untouched. -/
def routeTarget (key value : String) (t : Target) : Target :=
  if reMatch (targetFilter t) key then
    { t with target := some (t.target.getD "stderr"),
             properties := dictInsert t.properties key value }
  else t

/-- One iteration of the per-key loop (lines 177-188): every target whose
filter matches receives the key; the boolean is the `used` flag, true
when at least one target matched. -/
def routeKey (ts : List Target) (key value : String) : List Target × Bool :=
  (ts.map (routeTarget key value), ts.any (fun t => reMatch (targetFilter t) key))

/-- Routing all key/value pairs of one property source (line 176). -/
def routeSource (ts : List Target) (src : List (String × String)) : List Target :=
  src.foldl (fun ts kv => (routeKey ts kv.1 kv.2).1) ts

/-- The full routing phase (line 175): property sources are consumed in
reversed list order, so the first-listed (most specific) source is
processed last and overwrites. -/
def routeSources (ts : List Target) (srcs : List (List (String × String))) : List Target :=
  srcs.reverse.foldl routeSource ts

/-- Concatenation of a list of lists (kept self-contained for direct
structural unfolding in proofs). -/
def listJoin {α : Type} : List (List α) → List α
  | [] => []
  | l :: ls => l ++ listJoin ls

/-- The value of the last pair with key `k` in a pair list, if any.  This
characterises what repeated `d[k] = v` updates leave in a dict. -/
def lastOcc : List (String × String) → String → Option String
  | [], _ => none
  | p :: ps, k =>
    match lastOcc ps k with
    | some v => some v
    | none => if p.1 = k then some p.2 else none

/-- The spec-side merged value of a key: the value from the first-listed
(most specific) property source that contains the key.  Stated from the
spec's merge invariant, to be compared with what the routing code leaves
in the buckets. -/
def specMergedValue : List (List (String × String)) → String → Option String
  | [], _ => none
  | s :: rest, k =>
    match dictGet? s k with
    | some v => some v
    | none => specMergedValue rest k

/-- Observable output events of a run: writes to standard output, writes
to standard error, and the truncation performed by `open(filename, 'wb')`
(line 207).  `print(x, file=f)` is modelled as one write of `x ++ "\n"`;
`json.dump` as one write without a trailing newline. -/
inductive Out where
  | stdoutW : String → Out
  | stderrW : String → Out
  | fileTrunc : String → Out
deriving DecidableEq

/-- Python exceptions that the modelled code can raise. -/
inductive PyErr where
  | typeError : PyErr
  | attributeError : PyErr
  | httpError : List Nat → String → PyErr
  | urlError : String → PyErr
deriving DecidableEq

/-- UTF-8 encoding of one character, as `str.encode()` produces. -/
def utf8Bytes (c : Char) : List Nat :=
  let n := c.toNat
  if n < 128 then [n]
  else if n < 2048 then [192 + n / 64, 128 + n % 64]
  else if n < 65536 then [224 + n / 4096, 128 + (n / 64) % 64, 128 + n % 64]
  else [240 + n / 262144, 128 + (n / 4096) % 64, 128 + (n / 64) % 64, 128 + n % 64]

/-- `s.encode()`: the UTF-8 bytes of a string. -/
def strBytes (s : String) : List Nat := listJoin (s.data.map utf8Bytes)

/-- Lower-case hexadecimal digit. -/
def hexDigitLower (n : Nat) : Char :=
  if n < 10 then Char.ofNat (48 + n) else Char.ofNat (87 + n)

/-- Escape of one byte inside a Python `bytes` repr with the given quote
delimiter (39 = single quote, 34 = double quote). -/
def pyByteEsc (delim : Nat) (b : Nat) : List Char :=
  if b = 92 then [Char.ofNat 92, Char.ofNat 92]
  else if b = delim then [Char.ofNat 92, Char.ofNat delim]
  else if b = 9 then [Char.ofNat 92, 't']
  else if b = 10 then [Char.ofNat 92, 'n']
  else if b = 13 then [Char.ofNat 92, 'r']
  else if 32 ≤ b ∧ b ≤ 126 then [Char.ofNat b]
  else [Char.ofNat 92, 'x', hexDigitLower (b / 16), hexDigitLower (b % 16)]

/-- `str(b)` for a Python `bytes` object `b`: the repr `b` prefix, a
quote delimiter (double quote when the bytes contain a single quote but
no double quote), the escaped bytes, and the closing delimiter.  This is
what `print` writes when handed a `bytes` object on a text stream. -/
def pyBytesRepr (bs : List Nat) : String :=
  let delim : Nat := if bs.contains 39 && !(bs.contains 34) then 34 else 39
  String.mk ('b' :: Char.ofNat delim :: (listJoin (bs.map (pyByteEsc delim)) ++ [Char.ofNat delim]))

/-- Four-digit lower-case hexadecimal rendering, for `\uXXXX` escapes. -/
def hex4 (n : Nat) : List Char :=
  [hexDigitLower (n / 4096 % 16), hexDigitLower (n / 256 % 16),
   hexDigitLower (n / 16 % 16), hexDigitLower (n % 16)]

/-- JSON escape of one character, as `json.dump` (default
`ensure_ascii=True`) produces. -/
def jsonEscChar (c : Char) : List Char :=
  if c = Char.ofNat 34 then [Char.ofNat 92, Char.ofNat 34]
  else if c = Char.ofNat 92 then [Char.ofNat 92, Char.ofNat 92]
  else if c = Char.ofNat 10 then [Char.ofNat 92, 'n']
  else if c = Char.ofNat 9 then [Char.ofNat 92, 't']
  else if c = Char.ofNat 13 then [Char.ofNat 92, 'r']
  else if c = Char.ofNat 8 then [Char.ofNat 92, 'b']
  else if c = Char.ofNat 12 then [Char.ofNat 92, 'f']
  else if 32 ≤ c.toNat ∧ c.toNat ≤ 126 then [c]
  else if c.toNat < 65536 then Char.ofNat 92 :: 'u' :: hex4 c.toNat
  else
    (Char.ofNat 92 :: 'u' :: hex4 (55296 + (c.toNat - 65536) / 1024)) ++
      (Char.ofNat 92 :: 'u' :: hex4 (56320 + (c.toNat - 65536) % 1024))

/-- A JSON string literal. -/
def jsonStr (s : String) : String :=
  String.mk (Char.ofNat 34 :: (listJoin (s.data.map jsonEscChar) ++ [Char.ofNat 34]))

/-- `json.dump(properties, file, indent=4)` where `properties` is a list
of key/value tuples: a JSON array of two-element arrays, indented by 4. -/
def jsonDumpPairs (props : List (String × String)) : String :=
  match props with
  | [] => "[]"
  | _ =>
    "[\n" ++
      String.intercalate ",\n"
        (props.map (fun kv =>
          "    [\n        " ++ jsonStr kv.1 ++ ",\n        " ++ jsonStr kv.2 ++ "\n    ]")) ++
      "\n]"

/-- `write_property_file(file, properties, format)` (lines 218-229) when
`file` is a text stream (sys.stderr or sys.stdout); `sink` builds the
event for one write to that stream.  In the `properties`/`text` branch
the code prints the `bytes` object `key.encode() + b'=' + value.encode()`,
so the emitted line is its repr, not a plain `key=value` line.  The
illegal-format diagnostic goes to standard error. -/
def write_property_file_text (sink : String → Out) (props : List (String × String))
    (format : String) : List Out :=
  if format = "json" then [sink (jsonDumpPairs props)]
  else if format = "yml" then
    sink ("---" ++ "\n") :: props.map (fun kv => sink (kv.1 ++ " " ++ kv.2 ++ "\n"))
  else if format = "properties" ∨ format = "text" then
    props.map (fun kv =>
      sink (pyBytesRepr (strBytes kv.1 ++ 61 :: strBytes kv.2) ++ "\n"))
  else [Out.stderrW ("Illegal format " ++ format ++ " in VCAPX_CONFIG" ++ "\n")]

/-- `write_property_file(file, properties, format)` when `file` is a
binary-mode file (`open(filename, 'wb')`, line 207).  `json.dump` and
`print` both write `str` data, which a binary stream rejects: every
recognized format raises `TypeError` before writing anything (for
`properties`/`text` with an empty pair list the loop body never runs, so
nothing is written and nothing is raised).  An unrecognized format only
prints the diagnostic to standard error. -/
def write_property_file_bin (props : List (String × String)) (format : String) :
    Except PyErr (List Out) :=
  if format = "json" then .error .typeError
  else if format = "yml" then .error .typeError
  else if format = "properties" ∨ format = "text" then
    match props with
    | [] => .ok []
    | _ :: _ => .error .typeError
  else .ok [Out.stderrW ("Illegal format " ++ format ++ " in VCAPX_CONFIG" ++ "\n")]

/-- `add_environment_variable(key, value)` (lines 231-239): emit the
pair as a `key value` line on standard output for the caller to apply. -/
def add_environment_variable (key value : String) : Out :=
  Out.stdoutW (key ++ " " ++ value ++ "\n")

/-- `filename.rsplit('.', 1)` restricted to what line 206 uses: the split
of the character list at its last `.`, or `none` when there is none. -/
def rsplitDot : List Char → Option (List Char × List Char)
  | [] => none
  | c :: cs =>
    match rsplitDot cs with
    | some (bef, aft) => some (c :: bef, aft)
    | none => if c = '.' then some ([], cs) else none

/-- Format inference for a file destination with no explicit `format`
(line 206): the text after the last `.` of the path, or `properties` when
the path has no `.`. -/
def inferFormat (filename : String) : String :=
  match rsplitDot filename.data with
  | some (_, aft) => String.mk aft
  | none => "properties"

/-- One iteration of the output loop of `save_config_properties`
(lines 192-211): skip targets with an empty bucket, then dispatch on the
destination string.  A `file:` destination is opened in binary mode
(truncating the file) before serialization; an exception raised while
serializing into it is not caught and surfaces in the second component. -/
def writeTarget (t : Target) : List Out × Option PyErr :=
  if t.properties.length < 1 then ([], none)
  else if t.target.getD "stderr" = "env" then
    (t.properties.map (fun kv => add_environment_variable kv.1 kv.2), none)
  else if t.target.getD "stderr" = "stderr" then
    (write_property_file_text Out.stderrW t.properties (t.format.getD "text"), none)
  else if t.target.getD "stderr" = "stdout" then
    (write_property_file_text Out.stdoutW t.properties (t.format.getD "text"), none)
  else if (t.target.getD "stderr").data.take 5 = "file:".data then
    match write_property_file_bin t.properties
        (t.format.getD (inferFormat (String.mk ((t.target.getD "stderr").data.drop 5)))) with
    | .ok outs => (Out.fileTrunc (String.mk ((t.target.getD "stderr").data.drop 5)) :: outs, none)
    | .error e => ([Out.fileTrunc (String.mk ((t.target.getD "stderr").data.drop 5))], some e)
  else
    ([Out.stderrW ("Illegal target type " ++ t.target.getD "stderr" ++ " in VCAPX_CONFIG" ++ "\n")],
     none)

/-- The output loop over all targets (line 192): targets are processed in
list order; an uncaught exception aborts the loop, discarding the
remaining targets. -/
def writeTargets : List Target → List Out × Option PyErr
  | [] => ([], none)
  | t :: ts =>
    let r := writeTarget t
    match r.2 with
    | some e => (r.1, some e)
    | none => (r.1 ++ (writeTargets ts).1, (writeTargets ts).2)

/-- `save_config_properties(service, config)` (lines 142-211): route the
property sources through the targets, then run the output loop.  The
trailing `VCAP_CONFIG` re-emission (lines 213-214) is outside the
modelled observables. -/
def save_config_properties (targets : List Target)
    (propertySources : List (List (String × String))) : List Out × Option PyErr :=
  writeTargets (routeSources targets propertySources)

/-- The `credentials` dict of a bound service instance, with the fields
the program reads. -/
structure Credentials where
  access_token_uri : Option String
  client_id : Option String
  client_secret : Option String
  uri : Option String
  tags : List String
deriving DecidableEq

/-- `instance.get('credentials', {})` when the entry is missing. -/
def emptyCredentials : Credentials :=
  { access_token_uri := none, client_id := none, client_secret := none,
    uri := none, tags := [] }

/-- One service instance from `VCAP_SERVICES`. -/
structure ServiceInstance where
  tags : List String
  credentials : Option Credentials
deriving DecidableEq

/-- `instance.get('tags', []) + instance.get('credentials',{}).get('tags',[])`
(line 86). -/
def serviceTags (inst : ServiceInstance) : List String :=
  inst.tags ++ (inst.credentials.getD emptyCredentials).tags

/-- Scan of the instances of one service entry (lines 85-89). -/
def findTagged : List ServiceInstance → Option ServiceInstance
  | [] => none
  | inst :: rest =>
    if "spring-cloud" ∈ serviceTags inst ∧ "configuration" ∈ serviceTags inst then some inst
    else findTagged rest

/-- `find_spring_config_service` (lines 82-90): the first appropriately
tagged instance, scanning services and their instances in order. -/
def find_spring_config_service : List (String × List ServiceInstance) → Option ServiceInstance
  | [] => none
  | (_, insts) :: rest =>
    match findTagged insts with
    | some i => some i
    | none => find_spring_config_service rest

/-- The JSON body of the token endpoint's response, with the two fields
the program reads. -/
structure TokenResponse where
  access_token : Option String
  token_type : Option String
deriving DecidableEq

/-- `get_access_token(credentials)` (lines 95-105), with the transport
result of `urllib.request.urlopen` on the token endpoint as a parameter.
There is no exception handler in this function: a transport failure
propagates, and a response missing `token_type` or `access_token` makes
`token_type + " " + access_token` raise `TypeError`. -/
def get_access_token (credentials : Credentials)
    (tokenHttp : Except PyErr TokenResponse) : Except PyErr (Option String) :=
  match credentials.access_token_uri with
  | none => .ok none
  | some _ =>
    match tokenHttp with
    | .error e => .error e
    | .ok resp =>
      match resp.token_type, resp.access_token with
      | some tt, some tok => .ok (some (tt ++ " " ++ tok))
      | some _, none => .error .typeError
      | none, _ => .error .typeError

/-- Application identity read from `VCAP_APPLICATION`. -/
structure AppInfo where
  name : String
  profile : String
deriving DecidableEq

/-- `get_application_info` (lines 68-76): missing `application_name` is
fatal — the diagnostic is printed and the process exits with status 1. -/
def get_application_info (application_name space_name : Option String) :
    Except (Nat × List Out) AppInfo :=
  match application_name with
  | none => .error (1, [Out.stderrW ("VCAP_APPLICATION must specify application_name" ++ "\n")])
  | some n => .ok { name := n, profile := space_name.getD "default" }

/-- The external inputs of one run: the environment-derived metadata and
the outcomes of the two network calls. -/
structure RunInput where
  application_name : Option String
  space_name : Option String
  vcap_services : List (String × List ServiceInstance)
  tokenHttp : Except PyErr TokenResponse
  configHttp : Except PyErr (List (List (String × String)))
  targets : List Target

/-- How a run ends: an explicit `sys.exit`, an uncaught exception
(abnormal termination with a traceback), or normal completion. -/
inductive RunOutcome where
  | exit : Nat → RunOutcome
  | uncaught : PyErr → RunOutcome
  | done : RunOutcome
deriving DecidableEq

/-- `get_spring_cloud_config` (lines 113-140) at the default log level.
The `except URLError` handler around the config GET prints `err.read()`
and `err`; `err.read()` only exists on `HTTPError`, so a connection-level
`URLError` makes the handler itself raise `AttributeError`.
`get_access_token` is called before the `try` block, so its exceptions
are never caught here. -/
def get_spring_cloud_config (service : ServiceInstance) (inp : RunInput) :
    RunOutcome × List Out :=
  match get_access_token (service.credentials.getD emptyCredentials) inp.tokenHttp with
  | .error e => (.uncaught e, [])
  | .ok _access_token =>
    match (service.credentials.getD emptyCredentials).uri with
    | none =>
      (.done, [Out.stderrW ("services of type spring-config-server must specify a uri" ++ "\n")])
    | some _uri =>
      match inp.configHttp with
      | .error (.httpError body msg) =>
        (.done, [Out.stderrW (pyBytesRepr body ++ "\n"), Out.stderrW (msg ++ "\n")])
      | .error (.urlError _) => (.uncaught .attributeError, [])
      | .error e => (.uncaught e, [])
      | .ok config =>
        match (save_config_properties inp.targets config).2 with
        | some e => (.uncaught e, (save_config_properties inp.targets config).1)
        | none => (.done, (save_config_properties inp.targets config).1)

/-- `main()` (lines 32-39): resolve the application identity, find the
bound config service, and fetch-and-apply its configuration. -/
def runMain (inp : RunInput) : RunOutcome × List Out :=
  match get_application_info inp.application_name inp.space_name with
  | .error (code, outs) => (.exit code, outs)
  | .ok _appinfo =>
    match find_spring_config_service inp.vcap_services with
    | none => (.done, [])
    | some service => get_spring_cloud_config service inp

/-- One routing step on a single target, in the pair-at-a-time form used
by the proofs below. -/
def stepRT (t : Target) (kv : String × String) : Target := routeTarget kv.1 kv.2 t

/-- The evolution of one target under a whole list of key/value pairs. -/
def routeTargetPairs (t : Target) (pairs : List (String × String)) : Target :=
  pairs.foldl stepRT t

theorem getD_map_of_lt {α β : Type} (f : α → β) (l : List α) (m : Nat) (d : β) (d' : α)
    (h : m < l.length) : (l.map f).getD m d = f (l.getD m d') := by
  induction l generalizing m with
  | nil => simp at h
  | cons a l ih =>
    cases m with
    | zero => rfl
    | succ m => exact ih m (Nat.lt_of_succ_lt_succ (by simpa using h))

theorem routeTarget_filter (k v : String) (t : Target) :
    (routeTarget k v t).filter = t.filter := by
  unfold routeTarget; split <;> rfl

theorem targetFilter_routeTarget (k v : String) (t : Target) :
    targetFilter (routeTarget k v t) = targetFilter t := by
  unfold targetFilter; rw [routeTarget_filter]

theorem dictGet?_dictInsert_self (d : List (String × String)) (k v : String) :
    dictGet? (dictInsert d k v) k = some v := by
  induction d with
  | nil => simp [dictInsert, dictGet?]
  | cons p ps ih =>
    by_cases h : p.1 = k
    · simp [dictInsert, dictGet?, h]
    · simp [dictInsert, dictGet?, h, ih]

theorem dictGet?_dictInsert_ne (d : List (String × String)) (k' k v : String) (h : k' ≠ k) :
    dictGet? (dictInsert d k' v) k = dictGet? d k := by
  induction d with
  | nil => simp [dictInsert, dictGet?, h]
  | cons p ps ih =>
    by_cases hp : p.1 = k'
    · simp [dictInsert, dictGet?, hp, h, Ne.symm h]
    · simp [dictInsert, dictGet?, hp, ih]

theorem routeSource_eq_map (src : List (String × String)) :
    ∀ ts : List Target, routeSource ts src = ts.map (fun t => routeTargetPairs t src) := by
  induction src with
  | nil => intro ts; simp [routeSource, routeTargetPairs]
  | cons kv src ih =>
    intro ts
    rw [show routeSource ts (kv :: src) = routeSource (ts.map (routeTarget kv.1 kv.2)) src from rfl]
    rw [ih, List.map_map]
    rfl

theorem routeSources_eq_map (srcs : List (List (String × String))) (ts : List Target) :
    routeSources ts srcs = ts.map (fun t => routeTargetPairs t (listJoin srcs.reverse)) := by
  have aux : ∀ (l : List (List (String × String))) (ts : List Target),
      l.foldl routeSource ts = ts.map (fun t => routeTargetPairs t (listJoin l)) := by
    intro l
    induction l with
    | nil => intro ts; simp [listJoin, routeTargetPairs]
    | cons s l ih =>
      intro ts
      rw [List.foldl_cons, routeSource_eq_map, ih, List.map_map]
      have hfun : ((fun t => routeTargetPairs t (listJoin l)) ∘ fun t => routeTargetPairs t s)
          = fun t => routeTargetPairs t (listJoin (s :: l)) := by
        funext t
        simp [Function.comp, routeTargetPairs, listJoin, List.foldl_append]
      rw [hfun]
  exact aux srcs.reverse ts

theorem routeTargetPairs_lookup (k : String) (pairs : List (String × String)) :
    ∀ t : Target, reMatch (targetFilter t) k = true →
      dictGet? (routeTargetPairs t pairs).properties k =
        (match lastOcc pairs k with
         | some v => some v
         | none => dictGet? t.properties k) := by
  induction pairs with
  | nil => intro t _; rfl
  | cons p ps ih =>
    intro t h
    have hfilter : reMatch (targetFilter (stepRT t p)) k = true := by
      rw [show targetFilter (stepRT t p) = targetFilter t from targetFilter_routeTarget p.1 p.2 t]
      exact h
    rw [show routeTargetPairs t (p :: ps) = routeTargetPairs (stepRT t p) ps from rfl,
        ih (stepRT t p) hfilter]
    have hget : dictGet? (stepRT t p).properties k =
        (if p.1 = k then some p.2 else dictGet? t.properties k) := by
      by_cases hk : p.1 = k
      · simp [stepRT, routeTarget, hk, h, dictGet?_dictInsert_self]
      · by_cases hm : reMatch (targetFilter t) p.1
        · simp [stepRT, routeTarget, hm, hk, dictGet?_dictInsert_ne _ _ _ _ hk]
        · simp [stepRT, routeTarget, hm, hk]
    cases hl : lastOcc ps k with
    | some v => simp [lastOcc, hl]
    | none => by_cases hk : p.1 = k <;> simp [lastOcc, hl, hget, hk]

theorem dictGet?_some_mem (d : List (String × String)) (k v : String)
    (h : dictGet? d k = some v) : k ∈ d.map Prod.fst := by
  induction d with
  | nil => simp [dictGet?] at h
  | cons p ps ih =>
    by_cases hp : p.1 = k
    · simp [hp]
    · simp [dictGet?, hp] at h
      simp [ih h]

theorem lastOcc_nodup (d : List (String × String)) (k : String)
    (h : (d.map Prod.fst).Nodup) : lastOcc d k = dictGet? d k := by
  induction d with
  | nil => rfl
  | cons p ps ih =>
    rw [List.map_cons, List.nodup_cons] at h
    obtain ⟨hnm, hnd⟩ := h
    have ihp := ih hnd
    cases hl : lastOcc ps k with
    | some v =>
      have hps : dictGet? ps k = some v := by rw [← ihp, hl]
      have hk : p.1 ≠ k := by
        intro he
        exact hnm (he ▸ dictGet?_some_mem ps k v hps)
      simp [lastOcc, hl, dictGet?, hk, hps]
    | none =>
      have hps : dictGet? ps k = none := by rw [← ihp, hl]
      by_cases hk : p.1 = k <;> simp [lastOcc, hl, dictGet?, hk, hps]

theorem lastOcc_append (l1 l2 : List (String × String)) (k : String) :
    lastOcc (l1 ++ l2) k =
      (match lastOcc l2 k with
       | some v => some v
       | none => lastOcc l1 k) := by
  induction l1 with
  | nil => simp; cases lastOcc l2 k <;> rfl
  | cons p ps ih =>
    cases h2 : lastOcc l2 k with
    | some v => simp [lastOcc, ih, h2]
    | none =>
      cases h1 : lastOcc ps k with
      | some v => simp [lastOcc, ih, h2, h1]
      | none => simp [lastOcc, ih, h2, h1]

theorem listJoin_append {α : Type} (A B : List (List α)) :
    listJoin (A ++ B) = listJoin A ++ listJoin B := by
  induction A with
  | nil => rfl
  | cons a A ih => simp [listJoin, ih]

theorem lastOcc_join_reverse (srcs : List (List (String × String))) (k : String)
    (h : ∀ s ∈ srcs, (s.map Prod.fst).Nodup) :
    lastOcc (listJoin srcs.reverse) k = specMergedValue srcs k := by
  induction srcs with
  | nil => rfl
  | cons s rest ih =>
    have hs := h s (List.mem_cons_self s rest)
    have hrest : ∀ t ∈ rest, (t.map Prod.fst).Nodup := fun t ht => h t (List.mem_cons_of_mem _ ht)
    rw [List.reverse_cons, listJoin_append, show listJoin [s] = s ++ [] from rfl,
        List.append_nil, lastOcc_append, ih hrest, lastOcc_nodup s k hs]
    rfl

theorem specMergedValue_first (srcs : List (List (String × String))) :
    ∀ (i : Nat) (k v : String), i < srcs.length →
      dictGet? (srcs.getD i []) k = some v →
      (∀ n, n < i → dictGet? (srcs.getD n []) k = none) →
      specMergedValue srcs k = some v := by
  induction srcs with
  | nil => intro i k v h; exact absurd h (by simp)
  | cons s rest ih =>
    intro i k v hi hv hmin
    cases i with
    | zero =>
      rw [show (s :: rest).getD 0 [] = s from rfl] at hv
      simp [specMergedValue, hv]
    | succ i =>
      have h0 : dictGet? s k = none := by
        have := hmin 0 (Nat.succ_pos i)
        rwa [show (s :: rest).getD 0 [] = s from rfl] at this
      have hrec : specMergedValue rest k = some v :=
        ih i k v (Nat.lt_of_succ_lt_succ hi)
          (by rwa [show (s :: rest).getD (i + 1) [] = rest.getD i [] from rfl] at hv)
          (fun n hn => by
            have := hmin (n + 1) (Nat.succ_lt_succ hn)
            rwa [show (s :: rest).getD (n + 1) [] = rest.getD n [] from rfl] at this)
      simp [specMergedValue, h0, hrec]

/-- C1 (amended): the routing loop has no early stop, so a rule whose
pattern matches a key receives the key/value in its bucket at whatever
index it sits, regardless of whether earlier rules also match. -/
theorem routing_matching_rule_receives_key (ts : List Target) (k v : String) (m : Nat)
    (hm : m < ts.length)
    (hmatch : reMatch (targetFilter (ts.getD m dummyTarget)) k = true) :
    dictGet? (((routeKey ts k v).1.getD m dummyTarget).properties) k = some v := by
  show dictGet? (((ts.map (routeTarget k v)).getD m dummyTarget).properties) k = some v
  rw [getD_map_of_lt (routeTarget k v) ts m dummyTarget dummyTarget hm]
  unfold routeTarget
  rw [if_pos hmatch]
  exact dictGet?_dictInsert_self _ k v

/-- C1 witness: the third default rule receives the key `123`. -/
theorem routing_matching_rule_receives_key_witness :
    (2 < default_targets.length ∧
      reMatch (targetFilter (default_targets.getD 2 dummyTarget)) "123" = true) ∧
    dictGet? (((routeKey default_targets "123" "v").1.getD 2 dummyTarget).properties) "123"
      = some "v" :=
  ⟨⟨by decide, by decide⟩,
   routing_matching_rule_receives_key default_targets "123" "v" 2 (by decide) (by decide)⟩

/-- C1 counterexample: routing the key `123` through the default rules,
the first rule (`[0-9A-Z_]+$`) matches, yet the key/value is still
inserted into the bucket of the later third rule (`[a-z0-9]+$`), which
also matches — the inner loop of `save_config_properties` tests every
rule and never stops at the first match. -/
theorem routing_no_first_match_stop_cex :
    reMatch (targetFilter (default_targets.getD 0 dummyTarget)) "123" = true ∧
    reMatch (targetFilter (default_targets.getD 2 dummyTarget)) "123" = true ∧
    ((routeKey default_targets "123" "v").1.getD 2 dummyTarget).properties = [("123", "v")] ∧
    ((routeKey default_targets "123" "v").1.getD 0 dummyTarget).properties = [("123", "v")] := by
  refine ⟨by decide, by decide, by decide, by decide⟩

/-- C2: merge precedence.  If a key `k` appears in the property sources
at positions `i < j` (position 0 most specific) and in no source before
position `i`, then after the routing phase every bucket whose rule
matches `k` holds the value from position `i`: sources are replayed in
reversed list order with unconditional dict overwrite, so the
first-listed source wins. -/
theorem merge_first_listed_source_wins
    (ts : List Target) (srcs : List (List (String × String))) (m i j : Nat) (k v : String)
    (hm : m < ts.length)
    (hnd : ∀ s ∈ srcs, (s.map Prod.fst).Nodup)
    (hmatch : reMatch (targetFilter (ts.getD m dummyTarget)) k = true)
    (hij : i < j) (hj : j < srcs.length)
    (hi : dictGet? (srcs.getD i []) k = some v)
    (hfirst : ∀ n, n < i → dictGet? (srcs.getD n []) k = none) :
    dictGet? (((routeSources ts srcs).getD m dummyTarget).properties) k = some v := by
  rw [routeSources_eq_map,
      getD_map_of_lt (fun t => routeTargetPairs t (listJoin srcs.reverse)) ts m dummyTarget
        dummyTarget hm,
      routeTargetPairs_lookup k (listJoin srcs.reverse) (ts.getD m dummyTarget) hmatch,
      lastOcc_join_reverse srcs k hnd,
      specMergedValue_first srcs i k v (Nat.lt_trans hij hj) hi hfirst]

/-- C2 witness: with sources `[{a.b: x}, {a.b: y}]`, the bucket of the
second default rule ends with `a.b = x`, the value of the first-listed
source. -/
theorem merge_first_listed_source_wins_witness :
    (dictGet? ([[("a.b", "x")], [("a.b", "y")]].getD 0 []) "a.b" = some "x" ∧
      reMatch (targetFilter (default_targets.getD 1 dummyTarget)) "a.b" = true) ∧
    dictGet? (((routeSources default_targets [[("a.b", "x")], [("a.b", "y")]]).getD 1
      dummyTarget).properties) "a.b" = some "x" :=
  ⟨⟨by decide, by decide⟩,
   merge_first_listed_source_wins default_targets [[("a.b", "x")], [("a.b", "y")]] 1 0 1
     "a.b" "x" (by decide) (by decide) (by decide) (by decide) (by decide) (by decide)
     (fun n hn => absurd hn (Nat.not_lt_zero n))⟩

/-- C3: the end-to-end scenario of the spec, on the code.  With sources
`[{a.b: x}, {a.b: y, C: z}]` and the default rules, routing and merging
behave as claimed (`a.b = x` in the properties-file bucket, `C = z` in the
env bucket, and `C z` emitted on standard output); but the write phase
then truncates `config-server.properties` and raises `TypeError`
(`print` hands a `str` to the binary-mode file), so the claimed line
`a.b=x` is never written and the run aborts. -/
theorem end_to_end_scenario_crash :
    (routeSources default_targets [[("a.b", "x")], [("a.b", "y"), ("C", "z")]]).map
        Target.properties = [[("C", "z")], [("a.b", "x")], []] ∧
    save_config_properties default_targets [[("a.b", "x")], [("a.b", "y"), ("C", "z")]] =
      ([Out.stdoutW ("C z" ++ "\n"), Out.fileTrunc "config-server.properties"],
       some PyErr.typeError) := by
  refine ⟨by decide, by decide⟩

/-- C4: the `properties` format does not round-trip.  On a binary-mode
file the serializer raises `TypeError` before writing anything; on a text
stream `print` writes the repr of the `bytes` object
`key.encode() + b'=' + value.encode()`, not a plain `key=value` line, so
splitting the emitted lines on `=` does not reconstruct the mapping. -/
theorem properties_round_trip_fails :
    write_property_file_bin [("a", "1"), ("b", "2")] "properties" =
      Except.error PyErr.typeError ∧
    write_property_file_text Out.stdoutW [("a", "1"), ("b", "2")] "properties" ≠
      [Out.stdoutW ("a=1" ++ "\n"), Out.stdoutW ("b=2" ++ "\n")] := by
  refine ⟨rfl, by decide⟩

/-- C10: a target whose bucket is empty after routing is skipped by the
`len(properties) < 1` check before any destination or format validation:
no output event is produced and no error is raised, whatever the
destination and format strings are. -/
theorem empty_bucket_no_effect (t : Target) (h : t.properties = []) :
    writeTarget t = ([], none) := by
  simp [writeTarget, h]

/-- C10 witness: a target with an illegal destination and an illegal
format but an empty bucket produces nothing. -/
theorem empty_bucket_no_effect_witness :
    writeTarget { filter := none, target := some "nonsense", format := some "nonsense",
                  properties := [] } = ([], none) :=
  empty_bucket_no_effect _ rfl

/-- C9: a rule without a `filter` entry defaults to `.*`, which matches
every key, so such a rule always receives the key; routing also defaults
a missing `target` entry to `stderr`, and the write phase sends the
bucket of a target with no `target` entry to standard error. -/
theorem missing_filter_matches_all :
    (∀ (tgt fmt : Option String) (props : List (String × String)) (key : String),
        reMatch (targetFilter { filter := none, target := tgt, format := fmt,
                                properties := props }) key = true) ∧
    (∀ (key value : String) (tgt fmt : Option String) (props : List (String × String)),
        (routeTarget key value { filter := none, target := tgt, format := fmt,
                                 properties := props }).properties = dictInsert props key value) ∧
    (∀ (key value : String) (fmt : Option String) (props : List (String × String)),
        (routeTarget key value { filter := none, target := none, format := fmt,
                                 properties := props }).target = some "stderr") ∧
    (∀ (f : Option Pattern) (fmt : Option String) (p : String × String)
        (ps : List (String × String)),
        writeTarget { filter := f, target := none, format := fmt, properties := p :: ps } =
          (write_property_file_text Out.stderrW (p :: ps) (fmt.getD "text"), none)) := by
  have hmatch : ∀ (tgt fmt : Option String) (props : List (String × String)) (key : String),
      reMatch (targetFilter { filter := none, target := tgt, format := fmt,
                              properties := props }) key = true := by
    intro tgt fmt props key
    obtain ⟨data⟩ := key
    cases data <;> simp [targetFilter, defaultFilter, reMatch, reMatchStart, Re.nullable]
  refine ⟨hmatch, ?_, ?_, ?_⟩
  · intro key value tgt fmt props
    simp [routeTarget, hmatch tgt fmt props key]
  · intro key value fmt props
    simp [routeTarget, hmatch none fmt props key]
  · intro f fmt p ps
    simp [writeTarget]

theorem rsplitDot_none_of_no_dot : ∀ s : List Char, '.' ∉ s → rsplitDot s = none := by
  intro s
  induction s with
  | nil => intro _; rfl
  | cons c cs ih =>
    intro h
    have hc : ¬ c = '.' := fun he => h (he ▸ List.mem_cons_self c cs)
    have hcs : '.' ∉ cs := fun hm => h (List.mem_cons_of_mem c hm)
    simp [rsplitDot, ih hcs, hc]

theorem rsplitDot_append (pre ext : List Char) (hext : rsplitDot ext = none) :
    rsplitDot (pre ++ '.' :: ext) = some (pre, ext) := by
  induction pre with
  | nil => simp [rsplitDot, hext]
  | cons c pre ih => simp [rsplitDot, ih]

/-- C8: format inference for file destinations with no explicit format
(line 206): the inferred format is the text after the last `.` of the
path, and `properties` when the path has no `.`; in particular `out.yml`
infers `yml` and `out` infers `properties`. -/
theorem file_format_inference :
    inferFormat "out.yml" = "yml" ∧ inferFormat "out" = "properties" ∧
    (∀ pre ext : List Char, '.' ∉ ext →
        inferFormat (String.mk (pre ++ '.' :: ext)) = String.mk ext) ∧
    (∀ s : List Char, '.' ∉ s → inferFormat (String.mk s) = "properties") := by
  refine ⟨by decide, by decide, ?_, ?_⟩
  · intro pre ext h
    unfold inferFormat
    rw [show (String.mk (pre ++ '.' :: ext)).data = pre ++ '.' :: ext from rfl,
        rsplitDot_append pre ext (rsplitDot_none_of_no_dot ext h)]
  · intro s h
    unfold inferFormat
    rw [show (String.mk s).data = s from rfl, rsplitDot_none_of_no_dot s h]

/-- C8 witness: the general inference rules applied at `out` ++ `.` ++
`yml`. -/
theorem file_format_inference_witness :
    ('.' ∉ "yml".data ∧ '.' ∉ "out".data) ∧
    inferFormat (String.mk ("out".data ++ '.' :: "yml".data)) = String.mk "yml".data ∧
    inferFormat (String.mk "out".data) = "properties" :=
  ⟨⟨by decide, by decide⟩,
   file_format_inference.2.2.1 "out".data "yml".data (by decide),
   file_format_inference.2.2.2 "out".data (by decide)⟩

/-- C7 counterexample: a populated `file:` target with the unknown format
`bogus`.  The emitted diagnostic is `Illegal format bogus in
VCAPX_CONFIG` — it names the format but not the destination — and the
destination file has already been opened for binary write, truncating its
prior contents (the `Out.fileTrunc` event precedes the diagnostic). -/
theorem illegal_format_truncates_file_cex :
    writeTarget { filter := none, target := some "file:out.bin", format := some "bogus",
                  properties := [("k", "v")] } =
      ([Out.fileTrunc "out.bin",
        Out.stderrW ("Illegal format bogus in VCAPX_CONFIG" ++ "\n")], none) ∧
    Out.fileTrunc "out.bin" ∈
      (writeTarget { filter := none, target := some "file:out.bin", format := some "bogus",
                     properties := [("k", "v")] }).1 := by
  refine ⟨by decide, by decide⟩

/-- C7 (amended): for every populated file target whose format string is
not one of `json`, `yml`, `properties`, `text`, the write phase emits the
diagnostic `Illegal format <format> in VCAPX_CONFIG` (naming the format
but not the destination), writes no property data, and does not raise —
but only after `open(filename, 'wb')` has truncated the file. -/
theorem illegal_format_diagnostic_amended (f : Option Pattern) (fmt : String)
    (p : String × String) (ps : List (String × String))
    (h1 : fmt ≠ "json") (h2 : fmt ≠ "yml") (h3 : fmt ≠ "properties") (h4 : fmt ≠ "text") :
    writeTarget { filter := f, target := some "file:out.bin", format := some fmt,
                  properties := p :: ps } =
      ([Out.fileTrunc "out.bin",
        Out.stderrW ("Illegal format " ++ fmt ++ " in VCAPX_CONFIG" ++ "\n")], none) := by
  have hbin : write_property_file_bin (p :: ps) fmt =
      Except.ok [Out.stderrW ("Illegal format " ++ fmt ++ " in VCAPX_CONFIG" ++ "\n")] := by
    simp [write_property_file_bin, h1, h2, h3, h4]
  simp [writeTarget, hbin]

/-- C7 witness: the amended statement applied at the format `bogus`. -/
theorem illegal_format_diagnostic_amended_witness :
    ("bogus" : String) ≠ "json" ∧
    writeTarget { filter := none, target := some "file:out.bin", format := some "bogus",
                  properties := [("k", "v")] } =
      ([Out.fileTrunc "out.bin",
        Out.stderrW ("Illegal format " ++ "bogus" ++ " in VCAPX_CONFIG" ++ "\n")], none) :=
  ⟨by decide,
   illegal_format_diagnostic_amended none "bogus" ("k", "v") []
     (by decide) (by decide) (by decide) (by decide)⟩

/-- C5 counterexample: an exception while serializing into a file target
aborts the whole write phase.  The first target (`file:f.properties`,
format `properties`, populated bucket) truncates its file and raises
`TypeError`; the second target (`env`, populated) is never written — its
`A 1` line does not appear — so a write failure on one target does
prevent the remaining targets. -/
theorem write_error_aborts_remaining_targets_cex :
    writeTargets
        [{ filter := none, target := some "file:f.properties", format := some "properties",
           properties := [("k", "v")] },
         { filter := none, target := some "env", format := none,
           properties := [("A", "1")] }] =
      ([Out.fileTrunc "f.properties"], some PyErr.typeError) := by decide

/-- C5 (amended): failures the code checks for — illegal format, illegal
target — are reported on standard error and do not prevent the remaining
targets: whenever a target's write raises no exception the loop continues
into the rest, and a target whose destination is not a `file:` one never
raises.  But an exception raised while serializing into a file (the
`with open` block has no handler) propagates and aborts the remaining
targets. -/
theorem write_phase_isolation_amended :
    (∀ (t : Target) (ts : List Target), (writeTarget t).2 = none →
        writeTargets (t :: ts) =
          ((writeTarget t).1 ++ (writeTargets ts).1, (writeTargets ts).2)) ∧
    (∀ t : Target, (t.target.getD "stderr").data.take 5 ≠ "file:".data →
        (writeTarget t).2 = none) := by
  constructor
  · intro t ts h
    simp [writeTargets, h]
  · intro t h
    by_cases h0 : t.properties.length < 1
    · simp [writeTarget, h0]
    · by_cases h1 : t.target.getD "stderr" = "env"
      · simp [writeTarget, h0, h1]
      · by_cases h2 : t.target.getD "stderr" = "stderr"
        · simp [writeTarget, h0, h1, h2]
        · by_cases h3 : t.target.getD "stderr" = "stdout"
          · simp [writeTarget, h0, h1, h2, h3]
          · simp [writeTarget, h0, h1, h2, h3, h]

/-- C5 witness: a target with an illegal format on a stream destination
raises nothing, and the loop then continues into an `env` target. -/
theorem write_phase_isolation_amended_witness :
    (writeTarget { filter := none, target := some "stderr", format := some "bogus",
                   properties := [("k", "v")] }).2 = none ∧
    writeTargets
        [{ filter := none, target := some "stderr", format := some "bogus",
           properties := [("k", "v")] },
         { filter := none, target := some "env", format := none,
           properties := [("A", "1")] }] =
      ((writeTarget { filter := none, target := some "stderr", format := some "bogus",
                      properties := [("k", "v")] }).1 ++
         (writeTargets [{ filter := none, target := some "env", format := none,
                          properties := [("A", "1")] }]).1,
       (writeTargets [{ filter := none, target := some "env", format := none,
                        properties := [("A", "1")] }]).2) :=
  ⟨write_phase_isolation_amended.2 _ (by decide),
   write_phase_isolation_amended.1 _ _ (write_phase_isolation_amended.2 _ (by decide))⟩

/-- The run used as the C6 counterexample: the application identity is
present and a properly tagged config service is bound, but the transport
call to the token endpoint fails. -/
def c6CexInput : RunInput :=
  { application_name := some "app", space_name := none,
    vcap_services :=
      [("config-service",
        [{ tags := ["spring-cloud", "configuration"],
           credentials := some { access_token_uri := some "token-endpoint",
                                 client_id := none, client_secret := none,
                                 uri := some "config-server", tags := [] } }])],
    tokenHttp := Except.error (PyErr.urlError "connection refused"),
    configHttp := Except.ok [], targets := [] }

/-- C6 counterexample: a token-acquisition transport error is not
reported-and-survived — `get_access_token` has no exception handler and
is called outside the `try` block of `get_spring_cloud_config`, so the
error propagates uncaught and the run terminates abnormally (non-zero
status) even though the application identity was determined. -/
theorem token_transport_error_aborts_run_cex :
    runMain c6CexInput = (RunOutcome.uncaught (PyErr.urlError "connection refused"), []) ∧
    c6CexInput.application_name ≠ none := by
  refine ⟨rfl, by decide⟩

/-- C6 (amended): a missing `application_name` exits with status 1, and
`sys.exit` is reached only there; a missing service uri and an HTTP-level
error on the config GET are reported to standard error and the run
completes.  But transport failures during token acquisition (and other
uncaught exceptions, such as the connection-level `URLError` whose
handler itself raises, or the write-phase `TypeError`) also terminate the
run abnormally, so non-zero termination is not exclusive to the identity
failure. -/
theorem exit_behavior_amended :
    (∀ inp : RunInput, inp.application_name = none →
        runMain inp = (RunOutcome.exit 1,
          [Out.stderrW ("VCAP_APPLICATION must specify application_name" ++ "\n")])) ∧
    (∀ (inp : RunInput) (c : Nat), (runMain inp).1 = RunOutcome.exit c →
        c = 1 ∧ inp.application_name = none) ∧
    (∀ (inp : RunInput) (service : ServiceInstance) (tok : Option String) (u : String)
        (body : List Nat) (msg : String),
        find_spring_config_service inp.vcap_services = some service →
        get_access_token (service.credentials.getD emptyCredentials) inp.tokenHttp =
          Except.ok tok →
        (service.credentials.getD emptyCredentials).uri = some u →
        inp.application_name ≠ none →
        inp.configHttp = Except.error (PyErr.httpError body msg) →
        runMain inp = (RunOutcome.done,
          [Out.stderrW (pyBytesRepr body ++ "\n"), Out.stderrW (msg ++ "\n")])) := by
  refine ⟨?_, ?_, ?_⟩
  · intro inp h
    simp [runMain, get_application_info, h]
  · intro inp c h
    unfold runMain at h
    cases ha : inp.application_name with
    | none =>
      rw [ha] at h
      simp [get_application_info] at h
      exact ⟨h.symm, rfl⟩
    | some n =>
      exfalso
      rw [ha] at h
      simp only [get_application_info] at h
      cases hs : find_spring_config_service inp.vcap_services with
      | none => rw [hs] at h; simp at h
      | some service =>
        simp only [hs] at h
        unfold get_spring_cloud_config at h
        cases ht : get_access_token (service.credentials.getD emptyCredentials) inp.tokenHttp with
        | error e => simp only [ht] at h; simp at h
        | ok tok =>
          simp only [ht] at h
          cases hu : (service.credentials.getD emptyCredentials).uri with
          | none => simp only [hu] at h; simp at h
          | some u =>
            simp only [hu] at h
            cases hc : inp.configHttp with
            | error e =>
              simp only [hc] at h
              cases e <;> simp at h
            | ok config =>
              simp only [hc] at h
              cases hw : (save_config_properties inp.targets config).2 with
              | none => simp only [hw] at h; simp at h
              | some e => simp only [hw] at h; simp at h
  · intro inp service tok u body msg hfind htok huri hname hcfg
    cases han : inp.application_name with
    | none => exact absurd han hname
    | some n =>
      simp [runMain, get_spring_cloud_config, get_application_info, han, hfind, htok, huri, hcfg]

/-- C6 witness: the amended statement applied at a concrete run with a
missing application name, and at a concrete run whose config GET fails
with an HTTP-level error. -/
theorem exit_behavior_amended_witness :
    runMain { application_name := none, space_name := none, vcap_services := [],
              tokenHttp := Except.ok { access_token := none, token_type := none },
              configHttp := Except.ok [], targets := [] } =
      (RunOutcome.exit 1,
       [Out.stderrW ("VCAP_APPLICATION must specify application_name" ++ "\n")]) ∧
    runMain { application_name := some "app", space_name := none,
              vcap_services :=
                [("config-service",
                  [{ tags := ["spring-cloud", "configuration"],
                     credentials := some { access_token_uri := none, client_id := none,
                                           client_secret := none, uri := some "config-server",
                                           tags := [] } }])],
              tokenHttp := Except.ok { access_token := none, token_type := none },
              configHttp := Except.error (PyErr.httpError [52, 48, 48] "HTTP Error 400"),
              targets := [] } =
      (RunOutcome.done,
       [Out.stderrW (pyBytesRepr [52, 48, 48] ++ "\n"), Out.stderrW ("HTTP Error 400" ++ "\n")]) :=
  ⟨exit_behavior_amended.1 _ rfl,
   exit_behavior_amended.2.2 _
     { tags := ["spring-cloud", "configuration"],
       credentials := some { access_token_uri := none, client_id := none,
                             client_secret := none, uri := some "config-server", tags := [] } }
     none "config-server" [52, 48, 48] "HTTP Error 400" rfl rfl rfl (by decide) rfl⟩
